import Mathlib

set_option maxRecDepth 10000

/-! Shallow embedding of the web_chat core (src/audit.py, src/sessions.py,
src/routes.py): the in-memory session store, the per-session audit trail,
the artifact-extraction pipeline and the SSE stream generator, together
with theorems checking the specification's claims about them. -/

/-! ### Python primitives -/

/-- Python `int()` truncation toward zero on a rational (used for
`int((ended_at - started_at) * 1000)` in `audit.py`). -/
def pyInt (q : ℚ) : ℤ := q.num.tdiv (q.den : ℤ)

/-- The characters Python `str.split()` / `str.strip()` treat as whitespace. -/
def isPySpace (c : Char) : Bool :=
  c == ' ' || c == '\t' || c == '\n' || c == '\r' || c == Char.ofNat 11 || c == Char.ofNat 12

/-- Helper for `pySplit`: accumulates the current word (reversed) while
scanning; whitespace runs separate words and empty pieces are dropped,
exactly as Python `str.split()` with no argument does. -/
def pySplitAux : List Char → List Char → List String
  | [], acc => if acc.isEmpty then [] else [String.mk acc.reverse]
  | c :: rest, acc =>
    if isPySpace c then
      if acc.isEmpty then pySplitAux rest [] else String.mk acc.reverse :: pySplitAux rest []
    else pySplitAux rest (c :: acc)

/-- Python `str.split()` (split on whitespace runs, discarding empties). -/
def pySplit (s : String) : List String := pySplitAux s.data []

/-- Python `str.strip()` on a character list. -/
def pyStripL (cs : List Char) : List Char :=
  ((cs.dropWhile isPySpace).reverse.dropWhile isPySpace).reverse

/-- Substring containment, Python's `pat in s` on strings. -/
def containsSub (pat : List Char) : List Char → Bool
  | [] => List.isPrefixOf pat []
  | c :: cs => List.isPrefixOf pat (c :: cs) || containsSub pat cs

/-! ### Audit trail (src/audit.py) -/

/-- A JSON-ish scalar for the `details` payloads of audit steps. -/
inductive DVal where
  | s (v : String)
  | n (v : ℤ)
  | b (v : Bool)
deriving DecidableEq

/-- The `details` dict of an audit step. -/
abbrev Details := List (String × DVal)

/-- `AuditStep` dataclass from `audit.py`. -/
structure AuditStep where
  step : String
  status : String
  started_at : ℚ
  ended_at : Option ℚ := none
  duration_ms : Option ℤ := none
  details : Option Details := none
  error : Option String := none
deriving DecidableEq

/-- The `AuditTrail._trails` class-level dict: session id to trace. -/
abbrev AuditState := String → Option (List AuditStep)

namespace AuditTrail

/-- `AuditTrail.start_step`: append a fresh `running` step, creating the
session's trace lazily; returns the step and the new state. -/
def start_step (trails : AuditState) (session_id step : String)
    (details : Option Details) (now : ℚ) : AuditStep × AuditState :=
  let audit_step : AuditStep :=
    { step := step, status := "running", started_at := now, details := details }
  (audit_step,
   fun s => if s = session_id then some ((trails session_id).getD [] ++ [audit_step])
            else trails s)

/-- The mutation `end_step` performs on the step it finds: end timestamp,
integer-millisecond duration, status and error text. -/
def updStep (now : ℚ) (status : String) (error : Option String) (s : AuditStep) : AuditStep :=
  { s with ended_at := some now,
           duration_ms := some (pyInt ((now - s.started_at) * 1000)),
           status := status,
           error := error }

/-- The reverse scan of `end_step`, expressed on the reversed trace: the
first step (most recently added) with matching name and status `running`
is updated, then the scan stops. -/
def endStepRev (step status : String) (error : Option String) (now : ℚ) :
    List AuditStep → List AuditStep
  | [] => []
  | s :: rest =>
    if s.step = step ∧ s.status = "running" then updStep now status error s :: rest
    else s :: endStepRev step status error now rest

/-- `AuditTrail.end_step`: no-op on an unknown session, otherwise the
backwards scan over the session's trace. -/
def end_step (trails : AuditState) (session_id step status : String)
    (error : Option String) (now : ℚ) : AuditState :=
  match trails session_id with
  | none => trails
  | some l =>
    fun s => if s = session_id then some ((endStepRev step status error now l.reverse).reverse)
             else trails s

/-- Python truthiness of `s.ended_at` as tested by `get_stats`. -/
def endedTruthy (s : AuditStep) : Bool :=
  match s.ended_at with
  | some t => t != 0
  | none => false

/-- `AuditTrail.get_stats`: the returned dict, modelled as a key/value
list so the set of keys present is observable. -/
def get_stats (trails : AuditState) (session_id : String) : List (String × ℤ) :=
  let trail := (trails session_id).getD []
  if trail.isEmpty then
    [("total_steps", 0), ("errors", 0), ("total_duration_ms", 0), ("avg_duration_ms", 0)]
  else
    let completed := trail.filter endedTruthy
    let errors := trail.filter fun s => s.status == "error"
    let total_duration := (completed.map fun s => s.duration_ms.getD 0).sum
    [("total_steps", (trail.length : ℤ)),
     ("completed", (completed.length : ℤ)),
     ("errors", (errors.length : ℤ)),
     ("total_duration_ms", total_duration),
     ("avg_duration_ms",
        if !completed.isEmpty then total_duration.fdiv (completed.length : ℤ) else 0)]

end AuditTrail

/-! ### Sessions (src/sessions.py, src/models.py) -/

/-- `ChatMessage` model from `models.py`. -/
structure ChatMessage where
  id : String
  role : String
  content : String
  timestamp : ℚ
deriving DecidableEq

/-- `Session` model from `models.py`. -/
structure Session where
  session_id : String
  title : Option String := none
  favorite : Bool := false
  project_id : Option String := none
  messages : List ChatMessage := []
  updated_at : ℚ
  model : String := "haiku"
  message_count : ℕ := 0
deriving DecidableEq

/-- The class-level state of `SessionManager`: the `_sessions` dict and the
`_current_session_id` pointer. -/
structure SessionsState where
  _sessions : String → Option Session
  _current_session_id : Option String

namespace SessionManager

/-- `SessionManager.create_session`: builds a session from a freshly
generated id (`uuid4`, supplied as `newId`), stores it and makes it the
current session. -/
def create_session (st : SessionsState) (newId model : String) (now : ℚ) :
    Session × SessionsState :=
  let session : Session := { session_id := newId, model := model, updated_at := now }
  (session,
   { _sessions := fun s => if s = newId then some session else st._sessions s,
     _current_session_id := some newId })

/-- `SessionManager.get_or_create_session`: returns the stored session when
the given id is truthy and known, otherwise creates a new one. -/
def get_or_create_session (st : SessionsState) (session_id : Option String)
    (newId model : String) (now : ℚ) : Session × SessionsState :=
  match session_id with
  | some sid =>
    if sid ≠ "" then
      match st._sessions sid with
      | some sess => (sess, st)
      | none => create_session st newId model now
    else create_session st newId model now
  | none => create_session st newId model now

/-- `SessionManager.add_message`: appends a message, recomputes
`message_count`, refreshes `updated_at`, auto-derives a title on the first
user message; returns `none` and changes nothing for an unknown id. -/
def add_message (st : SessionsState) (session_id role content mid : String)
    (tsMsg tsUpd : ℚ) : Option ChatMessage × SessionsState :=
  match st._sessions session_id with
  | none => (none, st)
  | some session =>
    let message : ChatMessage := { id := mid, role := role, content := content, timestamp := tsMsg }
    let messages := session.messages ++ [message]
    let title :=
      if (session.title = none ∨ session.title = some "") ∧ role = "user" then
        some (content.take 50 ++ (if content.length > 50 then "..." else ""))
      else session.title
    let session' : Session :=
      { session with messages := messages, message_count := messages.length,
                     updated_at := tsUpd, title := title }
    (some message,
     { st with _sessions := fun s => if s = session_id then some session' else st._sessions s })

/-- `SessionManager.delete_session`: removes a known session (clearing the
current pointer when it referenced it), returns `false` otherwise. -/
def delete_session (st : SessionsState) (session_id : String) : Bool × SessionsState :=
  match st._sessions session_id with
  | some _ =>
    (true,
     { _sessions := fun s => if s = session_id then none else st._sessions s,
       _current_session_id :=
         if st._current_session_id = some session_id then none else st._current_session_id })
  | none => (false, st)

/-- `SessionManager.reset`: creates a new session and makes it current. -/
def reset (st : SessionsState) (newId model : String) (now : ℚ) :
    Session × SessionsState :=
  create_session st newId model now

end SessionManager

/-! ### Helper lemmas about the audit trail -/

/-- A trace with no running step of the given name is left untouched by the
reverse scan. -/
theorem endStepRev_no_match (step status : String) (error : Option String) (now : ℚ)
    (l : List AuditStep) (h : ∀ s ∈ l, ¬(s.step = step ∧ s.status = "running")) :
    AuditTrail.endStepRev step status error now l = l := by
  induction l with
  | nil => rfl
  | cons s rest ih =>
    have hs := h s (List.mem_cons_self s rest)
    have hrest : ∀ x ∈ rest, ¬(x.step = step ∧ x.status = "running") :=
      fun x hx => h x (List.mem_cons_of_mem s hx)
    simp only [AuditTrail.endStepRev, if_neg hs, ih hrest]

/-- The reverse scan skips over a no-match block unchanged. -/
theorem endStepRev_append_no_match (step status : String) (error : Option String) (now : ℚ)
    (m k : List AuditStep) (h : ∀ s ∈ m, ¬(s.step = step ∧ s.status = "running")) :
    AuditTrail.endStepRev step status error now (m ++ k)
      = m ++ AuditTrail.endStepRev step status error now k := by
  induction m with
  | nil => rfl
  | cons s rest ih =>
    have hs := h s (List.mem_cons_self s rest)
    have hrest : ∀ x ∈ rest, ¬(x.step = step ∧ x.status = "running") :=
      fun x hx => h x (List.mem_cons_of_mem s hx)
    simp only [List.cons_append, AuditTrail.endStepRev, if_neg hs, List.append_eq, ih hrest]

/-- Summing ended-step durations over the filtered trace equals summing,
over the full trace, a contribution that is zero for running steps. -/
theorem sum_durations_filter (l : List AuditStep) :
    ((l.filter AuditTrail.endedTruthy).map fun s => s.duration_ms.getD 0).sum
      = (l.map fun s => if AuditTrail.endedTruthy s then s.duration_ms.getD 0 else 0).sum := by
  induction l with
  | nil => rfl
  | cons s rest ih =>
    by_cases h : AuditTrail.endedTruthy s
    · simp [List.filter_cons, h, ih]
    · simp [List.filter_cons, h, ih]

/-! ### Claim theorems for the audit recorder and the session store -/

/-- Claim C3: `end_step` scans the session's trace from most-recently-added
backward, mutates only the first step whose name matches and whose status is
`running` (setting the end timestamp, the integer-millisecond duration
`end - start`, the given status and the error text, leaving the step's other
fields and every other step unchanged), and stops; with an unknown session id
or no matching step the whole state is unchanged (and, being a total
function, no error is raised). -/
theorem end_step_spec (trails : AuditState) (sid name status : String)
    (error : Option String) (now : ℚ) :
    (trails sid = none → AuditTrail.end_step trails sid name status error now = trails)
  ∧ (∀ l, trails sid = some l →
      (∀ s ∈ l, ¬(s.step = name ∧ s.status = "running")) →
      AuditTrail.end_step trails sid name status error now = trails)
  ∧ (∀ l₁ s l₂, trails sid = some (l₁ ++ s :: l₂) →
      s.step = name → s.status = "running" →
      (∀ s' ∈ l₂, ¬(s'.step = name ∧ s'.status = "running")) →
      AuditTrail.end_step trails sid name status error now
        = fun x => if x = sid then some (l₁ ++ AuditTrail.updStep now status error s :: l₂)
                   else trails x)
  ∧ (∀ s, (AuditTrail.updStep now status error s).ended_at = some now
      ∧ (AuditTrail.updStep now status error s).duration_ms
          = some (pyInt ((now - s.started_at) * 1000))
      ∧ (AuditTrail.updStep now status error s).status = status
      ∧ (AuditTrail.updStep now status error s).error = error
      ∧ (AuditTrail.updStep now status error s).step = s.step
      ∧ (AuditTrail.updStep now status error s).started_at = s.started_at
      ∧ (AuditTrail.updStep now status error s).details = s.details) := by
  refine ⟨?_, ?_, ?_, ?_⟩
  · intro h
    unfold AuditTrail.end_step
    rw [h]
  · intro l hl hno
    have hrev : ∀ s ∈ l.reverse, ¬(s.step = name ∧ s.status = "running") := by
      intro s hs
      exact hno s (List.mem_reverse.mp hs)
    funext x
    simp only [AuditTrail.end_step, hl]
    by_cases hx : x = sid
    · rw [if_pos hx, endStepRev_no_match name status error now l.reverse hrev,
          List.reverse_reverse, hx, hl]
    · rw [if_neg hx]
  · intro l₁ s l₂ hl hstep hrun hno
    funext x
    simp only [AuditTrail.end_step, hl]
    by_cases hx : x = sid
    · rw [if_pos hx, if_pos hx]
      have hrev : ∀ s' ∈ l₂.reverse, ¬(s'.step = name ∧ s'.status = "running") := by
        intro s' hs'
        exact hno s' (List.mem_reverse.mp hs')
      rw [List.reverse_append, List.reverse_cons, List.append_assoc,
        endStepRev_append_no_match name status error now l₂.reverse _ hrev]
      simp only [List.singleton_append, AuditTrail.endStepRev]
      rw [if_pos (show s.step = name ∧ s.status = "running" from ⟨hstep, hrun⟩)]
      simp
    · rw [if_neg hx, if_neg hx]
  · intro s
    refine ⟨rfl, rfl, rfl, rfl, rfl, rfl, rfl⟩

/-- Witness for C3: the three behaviours at concrete inputs. -/
theorem end_step_spec_witness :
    AuditTrail.end_step (fun _ => none) "s" "a" "success" none 0 = (fun _ => none)
  ∧ AuditTrail.end_step
      (fun x => if x = "s" then some [{ step := "a", status := "running", started_at := 1 }] else none)
      "s" "a" "success" none 3
    = fun x => if x = "s" then
        some ([] ++ AuditTrail.updStep 3 "success" none
                { step := "a", status := "running", started_at := 1 } :: [])
      else (fun y => if y = "s" then some [{ step := "a", status := "running", started_at := 1 }] else none) x := by
  constructor
  · exact (end_step_spec (fun _ => none) "s" "a" "success" none 0).1 rfl
  · exact (end_step_spec _ "s" "a" "success" none 3).2.2.1
      [] { step := "a", status := "running", started_at := 1 } [] rfl rfl rfl (by simp)

/-- Claim C4 counterexample: for an unknown session id (and likewise an empty
trace) the stats dict returned by `get_stats` does not contain the
completed-count key at all, so it is not a record containing all five of
totalSteps, completedCount, errorCount, totalDurationMs, avgDurationMs. -/
theorem get_stats_missing_completed_key :
    List.lookup "completed" (AuditTrail.get_stats (fun _ => none) "missing") = none
  ∧ List.lookup "total_steps" (AuditTrail.get_stats (fun _ => none) "missing") = some 0 := by
  constructor <;> rfl

/-- Claim C4 (amended): on an unknown id or an empty trace `get_stats`
returns the four-key all-zero record (with no completed count); on a
non-empty trace it returns all five keys, where the total duration sums only
the durations of steps that were ended (running steps contribute nothing)
and the average is the floor quotient of the total by the completed count
when that count is positive, else 0. -/
theorem get_stats_spec (trails : AuditState) (sid : String) :
    ((trails sid).getD [] = [] →
      AuditTrail.get_stats trails sid
        = [("total_steps", 0), ("errors", 0), ("total_duration_ms", 0), ("avg_duration_ms", 0)])
  ∧ (∀ l, trails sid = some l → l ≠ [] →
      AuditTrail.get_stats trails sid
        = [("total_steps", (l.length : ℤ)),
           ("completed", ((l.filter AuditTrail.endedTruthy).length : ℤ)),
           ("errors", ((l.filter fun s => s.status == "error").length : ℤ)),
           ("total_duration_ms",
              (l.map fun s => if AuditTrail.endedTruthy s then s.duration_ms.getD 0 else 0).sum),
           ("avg_duration_ms",
              if 0 < (l.filter AuditTrail.endedTruthy).length then
                Int.fdiv
                  ((l.map fun s => if AuditTrail.endedTruthy s then s.duration_ms.getD 0 else 0).sum)
                  ((l.filter AuditTrail.endedTruthy).length : ℤ)
              else 0)]) := by
  constructor
  · intro h
    unfold AuditTrail.get_stats
    rw [h]
    rfl
  · intro l hl hne
    have hle : l.isEmpty = false := by
      cases l with
      | nil => exact absurd rfl hne
      | cons a t => rfl
    unfold AuditTrail.get_stats
    rw [hl]
    simp only [Option.getD_some, hle, Bool.false_eq_true, if_false, sum_durations_filter]
    have hiff : ((!(l.filter AuditTrail.endedTruthy).isEmpty) = true)
        ↔ 0 < (l.filter AuditTrail.endedTruthy).length := by
      cases h : l.filter AuditTrail.endedTruthy <;> simp
    by_cases hc : 0 < (l.filter AuditTrail.endedTruthy).length
    · rw [if_pos (hiff.mpr hc), if_pos hc]
    · rw [if_neg (fun hh => hc (hiff.mp hh)), if_neg hc]

/-- Witness for C4's amended theorem: both branches at concrete inputs. -/
theorem get_stats_spec_witness :
    AuditTrail.get_stats (fun _ => none) "s"
      = [("total_steps", 0), ("errors", 0), ("total_duration_ms", 0), ("avg_duration_ms", 0)]
  ∧ AuditTrail.get_stats
      (fun x => if x = "s" then some [{ step := "a", status := "running", started_at := 1 }] else none) "s"
      = [("total_steps", 1), ("completed", 0), ("errors", 0),
         ("total_duration_ms", 0), ("avg_duration_ms", 0)] := by
  constructor
  · exact (get_stats_spec (fun _ => none) "s").1 rfl
  · have h := (get_stats_spec
      (fun x => if x = "s" then some [{ step := "a", status := "running", started_at := 1 }] else none)
      "s").2 [{ step := "a", status := "running", started_at := 1 }] rfl (by simp)
    rw [h]
    rfl

/-- Claim C7: `add_message` on a known session appends exactly one message,
keeps `message_count` equal to the length of the message sequence, refreshes
the last-updated timestamp, and sets the title (first 50 characters of the
content, with an ellipsis exactly when the content is longer than 50
characters) only when the session has no title yet (None or empty) and the
role is `user`; on an unknown id it returns `none` and changes no state. -/
theorem add_message_spec (st : SessionsState) (sid role content mid : String)
    (tsMsg tsUpd : ℚ) :
    (st._sessions sid = none →
      SessionManager.add_message st sid role content mid tsMsg tsUpd = (none, st))
  ∧ (∀ sess, st._sessions sid = some sess →
      ∃ sess',
        SessionManager.add_message st sid role content mid tsMsg tsUpd
          = (some { id := mid, role := role, content := content, timestamp := tsMsg },
             { st with _sessions := fun s => if s = sid then some sess' else st._sessions s })
        ∧ sess'.messages = sess.messages
            ++ [{ id := mid, role := role, content := content, timestamp := tsMsg }]
        ∧ sess'.message_count = sess'.messages.length
        ∧ sess'.updated_at = tsUpd
        ∧ sess'.title = (if (sess.title = none ∨ sess.title = some "") ∧ role = "user" then
              some (content.take 50 ++ (if content.length > 50 then "..." else ""))
            else sess.title)
        ∧ sess'.session_id = sess.session_id
        ∧ sess'.favorite = sess.favorite
        ∧ sess'.project_id = sess.project_id
        ∧ sess'.model = sess.model) := by
  constructor
  · intro h
    unfold SessionManager.add_message
    rw [h]
  · intro sess h
    refine ⟨({ sess with
        messages := sess.messages
          ++ [({ id := mid, role := role, content := content, timestamp := tsMsg } : ChatMessage)],
        message_count := (sess.messages
          ++ [({ id := mid, role := role, content := content, timestamp := tsMsg } : ChatMessage)]).length,
        updated_at := tsUpd,
        title := if (sess.title = none ∨ sess.title = some "") ∧ role = "user" then
            some (content.take 50 ++ (if content.length > 50 then "..." else ""))
          else sess.title } : Session), ?_, rfl, rfl, rfl, rfl, rfl, rfl, rfl, rfl⟩
    unfold SessionManager.add_message
    rw [h]

/-- Witness for C7: both branches at concrete inputs. -/
theorem add_message_spec_witness :
    SessionManager.add_message
      { _sessions := fun _ => none, _current_session_id := none } "s" "user" "oi" "m1" 1 2
      = (none, { _sessions := fun _ => none, _current_session_id := none })
  ∧ ∃ sess',
      SessionManager.add_message
        { _sessions := fun x => if x = "s" then some { session_id := "s", updated_at := 0 } else none,
          _current_session_id := none } "s" "user" "oi" "m1" 1 2
        = (some { id := "m1", role := "user", content := "oi", timestamp := 1 },
           { _sessions := fun x => if x = "s" then some sess' else
               (fun y => if y = "s" then some { session_id := "s", updated_at := 0 } else none) x,
             _current_session_id := none })
      ∧ sess'.message_count = sess'.messages.length
      ∧ sess'.title = some "oi" := by
  constructor
  · exact (add_message_spec
      { _sessions := fun _ => none, _current_session_id := none } "s" "user" "oi" "m1" 1 2).1 rfl
  · obtain ⟨sess', heq, hmsgs, hcount, hupd, htitle, -, -, -, -⟩ :=
      (add_message_spec
        { _sessions := fun x => if x = "s" then some { session_id := "s", updated_at := 0 } else none,
          _current_session_id := none } "s" "user" "oi" "m1" 1 2).2
        { session_id := "s", updated_at := 0 } rfl
    refine ⟨sess', heq, hcount, ?_⟩
    rw [htitle]
    rfl

/-- Claim C8: deleting an unknown session id returns `false` and leaves the
session map and the current-session pointer unchanged; deleting a known id
returns `true`, removes exactly that session, and clears the current-session
pointer if and only if it referenced the deleted id. -/
theorem delete_session_spec (st : SessionsState) (sid : String) :
    (st._sessions sid = none →
      SessionManager.delete_session st sid = (false, st))
  ∧ (∀ sess, st._sessions sid = some sess →
      (SessionManager.delete_session st sid).1 = true
      ∧ (SessionManager.delete_session st sid).2._sessions sid = none
      ∧ (∀ x, x ≠ sid →
          (SessionManager.delete_session st sid).2._sessions x = st._sessions x)
      ∧ (SessionManager.delete_session st sid).2._current_session_id
          = (if st._current_session_id = some sid then none else st._current_session_id)) := by
  constructor
  · intro h
    unfold SessionManager.delete_session
    rw [h]
  · intro sess h
    unfold SessionManager.delete_session
    rw [h]
    refine ⟨rfl, by simp, ?_, rfl⟩
    intro x hx
    simp [hx]

/-- Witness for C8: both branches at concrete inputs. -/
theorem delete_session_spec_witness :
    SessionManager.delete_session
      { _sessions := fun _ => none, _current_session_id := some "s" } "s"
      = (false, { _sessions := fun _ => none, _current_session_id := some "s" })
  ∧ (SessionManager.delete_session
      { _sessions := fun x => if x = "s" then some { session_id := "s", updated_at := 0 } else none,
        _current_session_id := some "s" } "s").2._current_session_id = none := by
  constructor
  · exact (delete_session_spec
      { _sessions := fun _ => none, _current_session_id := some "s" } "s").1 rfl
  · have h := ((delete_session_spec
      { _sessions := fun x => if x = "s" then some { session_id := "s", updated_at := 0 } else none,
        _current_session_id := some "s" } "s").2
      { session_id := "s", updated_at := 0 } rfl).2.2.2
    rw [h]
    rfl

/-- Claim C10: every session-creating operation (`create_session`,
`get_or_create_session` with an absent, empty or unknown id, and `reset`)
sets the process-wide current-session pointer to the newly created session's
id, while `get_or_create_session` with a known (nonempty) id returns the
stored session and leaves the whole state, pointer included, unchanged. -/
theorem session_creation_sets_current (st : SessionsState) (newId model : String) (now : ℚ) :
    (SessionManager.create_session st newId model now).2._current_session_id = some newId
  ∧ (SessionManager.reset st newId model now).2._current_session_id = some newId
  ∧ (SessionManager.get_or_create_session st none newId model now).2._current_session_id
      = some newId
  ∧ (SessionManager.get_or_create_session st (some "") newId model now).2._current_session_id
      = some newId
  ∧ (∀ sid, sid ≠ "" → st._sessions sid = none →
      (SessionManager.get_or_create_session st (some sid) newId model now).2._current_session_id
        = some newId)
  ∧ (∀ sid sess, sid ≠ "" → st._sessions sid = some sess →
      SessionManager.get_or_create_session st (some sid) newId model now = (sess, st)) := by
  refine ⟨rfl, rfl, rfl, rfl, ?_, ?_⟩
  · intro sid hne h
    simp only [SessionManager.get_or_create_session]
    rw [if_pos hne, h]
    rfl
  · intro sid sess hne h
    simp only [SessionManager.get_or_create_session]
    rw [if_pos hne, h]

/-- Witness for C10: the known-id and unknown-id cases at concrete inputs. -/
theorem session_creation_sets_current_witness :
    SessionManager.get_or_create_session
      { _sessions := fun x => if x = "k" then some { session_id := "k", updated_at := 0 } else none,
        _current_session_id := some "other" } (some "k") "new" "haiku" 5
      = ({ session_id := "k", updated_at := 0 },
         { _sessions := fun x => if x = "k" then some { session_id := "k", updated_at := 0 } else none,
           _current_session_id := some "other" })
  ∧ (SessionManager.get_or_create_session
      { _sessions := fun _ => none, _current_session_id := some "other" }
      (some "u") "new" "haiku" 5).2._current_session_id = some "new" := by
  constructor
  · exact (session_creation_sets_current
      { _sessions := fun x => if x = "k" then some { session_id := "k", updated_at := 0 } else none,
        _current_session_id := some "other" } "new" "haiku" 5).2.2.2.2.2
      "k" { session_id := "k", updated_at := 0 } (by simp) rfl
  · exact (session_creation_sets_current
      { _sessions := fun _ => none, _current_session_id := some "other" } "new" "haiku" 5).2.2.2.2.1
      "u" (by simp) rfl

/-! ### Artifact deletion endpoint (src/routes.py, delete_artifact) -/

/-- Outcome of the `DELETE /artifacts/{filename}` handler. -/
inductive DeleteArtifactResult where
  | invalidName
  | notFound
  | deleted
  | failed (msg : String)
deriving DecidableEq

/-- Python `"/" in filename`. -/
def hasSlash (filename : String) : Bool := filename.data.contains '/'

/-- Python `".." in filename`. -/
def hasDotDot (filename : String) : Bool := containsSub ['.', '.'] filename.data

/-- `delete_artifact` from `routes.py`: reject names holding a path separator
or parent-directory marker, 404 for missing files, otherwise unlink (whose
possible failure is the `unlinkErr` environment input). The filesystem is
modelled as the list of existing artifact file names. -/
def delete_artifact (filename : String) (fs : List String) (unlinkErr : Option String) :
    DeleteArtifactResult × List String :=
  if hasSlash filename || hasDotDot filename then (DeleteArtifactResult.invalidName, fs)
  else if !(fs.contains filename) then (DeleteArtifactResult.notFound, fs)
  else
    match unlinkErr with
    | some e => (DeleteArtifactResult.failed e, fs)
    | none => (DeleteArtifactResult.deleted, fs.erase filename)

/-- Claim C9: any artifact name containing a path separator `/` or the
parent-directory marker `..` is rejected as invalid with no file deleted,
and the deletion (unlink) branch is only reachable for names free of both
markers. -/
theorem delete_artifact_path_safety (filename : String) (fs : List String)
    (unlinkErr : Option String) :
    (hasSlash filename = true ∨ hasDotDot filename = true →
      delete_artifact filename fs unlinkErr = (DeleteArtifactResult.invalidName, fs))
  ∧ ((delete_artifact filename fs unlinkErr).1 = DeleteArtifactResult.deleted
        ∨ (∃ e, (delete_artifact filename fs unlinkErr).1 = DeleteArtifactResult.failed e) →
      hasSlash filename = false ∧ hasDotDot filename = false) := by
  constructor
  · intro h
    unfold delete_artifact
    have hb : (hasSlash filename || hasDotDot filename) = true := by
      rcases h with h | h <;> simp [h]
    rw [if_pos hb]
  · intro h
    by_cases hb : (hasSlash filename || hasDotDot filename) = true
    · exfalso
      unfold delete_artifact at h
      rw [if_pos hb] at h
      rcases h with h | ⟨e, h⟩ <;> exact absurd h (by simp)
    · constructor
      · cases hs : hasSlash filename
        · rfl
        · exact absurd (by simp [hs]) hb
      · cases hd : hasDotDot filename
        · rfl
        · exact absurd (by simp [hd]) hb

/-- Witness for C9: a traversal name is rejected, a clean name is deletable. -/
theorem delete_artifact_path_safety_witness :
    delete_artifact "../etc/passwd" ["a.py"] none = (DeleteArtifactResult.invalidName, ["a.py"])
  ∧ hasSlash "a.py" = false ∧ hasDotDot "a.py" = false := by
  constructor
  · exact (delete_artifact_path_safety "../etc/passwd" ["a.py"] none).1 (Or.inl (by decide))
  · exact (delete_artifact_path_safety "a.py" ["a.py"] none).2 (Or.inl (by decide))

/-! ### Artifact extraction (src/routes.py, extract_and_save_artifacts) -/

/-- A regex word character (`\w`), ASCII. -/
def isWordChar (c : Char) : Bool := c.isAlphanum || c == '_'

/-- The backtick character. -/
def fenceChar : Char := Char.ofNat 96

/-- Does the text start with a triple-backtick fence marker? -/
def isFenceAt : List Char → Bool
  | a :: b :: c :: _ => a == fenceChar && b == fenceChar && c == fenceChar
  | _ => false

/-- Lazy body match of the fence regex: splits at the first occurrence of a
closing triple backtick, returning the body before it and the text after it;
`none` when no closing fence exists (so the regex fails at this start). -/
def splitAtFence : List Char → Option (List Char × List Char)
  | [] => none
  | c :: rest =>
    if isFenceAt (c :: rest) then some ([], rest.drop 2)
    else
      match splitAtFence rest with
      | some (b, a) => some (c :: b, a)
      | none => none

/-- The scan performed by `re.findall(r'```(\w+)?\s*(.*?)```', text, DOTALL)`
together with `re.sub` of the same pattern by the empty string: at each
position, an opening fence is followed by the greedy optional word-character
tag, greedy whitespace, then the lazy body up to the first closing fence;
on a match the scan resumes after the closing fence and the whole match is
dropped from the output text; otherwise the character is kept and the scan
moves on.  The fuel is the input length, which each step strictly consumes. -/
def scanAux : ℕ → List Char → List (List Char × List Char) × List Char
  | 0, cs => ([], cs)
  | _ + 1, [] => ([], [])
  | fuel + 1, c :: rest =>
    if isFenceAt (c :: rest) then
      let afterOpen := rest.drop 2
      let tag := afterOpen.takeWhile isWordChar
      let afterTag := afterOpen.dropWhile isWordChar
      let afterWs := afterTag.dropWhile isPySpace
      match splitAtFence afterWs with
      | some (body, rem) =>
        let r := scanAux fuel rem
        ((tag, body) :: r.1, r.2)
      | none =>
        let r := scanAux fuel rest
        (r.1, c :: r.2)
    else
      let r := scanAux fuel rest
      (r.1, c :: r.2)

/-- Case-insensitive prefix test (for the IGNORECASE HTML regex). -/
def startsWithLower (pat cs : List Char) : Bool :=
  List.isPrefixOf pat ((cs.take pat.length).map Char.toLower)

/-- Lazy tail of `re.search(r'<!doctype.*?</html>', ...)`: the characters up
to and including the first case-insensitive `</html>`. -/
def findHtmlEnd : List Char → Option (List Char)
  | [] => none
  | c :: rest =>
    if startsWithLower "</html>".data (c :: rest) then some ((c :: rest).take 7)
    else
      match findHtmlEnd rest with
      | some t => some (c :: t)
      | none => none

/-- `re.search(r'<!doctype.*?</html>', text, DOTALL | IGNORECASE)`: the
leftmost `<!doctype` followed lazily by the first `</html>`. -/
def htmlSearch : List Char → Option (List Char)
  | [] => none
  | c :: rest =>
    if startsWithLower "<!doctype".data (c :: rest) then
      match findHtmlEnd ((c :: rest).drop 9) with
      | some t => some ((c :: rest).take 9 ++ t)
      | none => htmlSearch rest
    else htmlSearch rest

/-- The language-tag to file-extension lookup table. -/
def ext_map : List (String × String) :=
  [("html", ".html"), ("htm", ".html"), ("css", ".css"), ("javascript", ".js"),
   ("js", ".js"), ("python", ".py"), ("py", ".py"), ("json", ".json"),
   ("xml", ".xml"), ("sql", ".sql"), ("bash", ".sh"), ("shell", ".sh"),
   ("typescript", ".ts"), ("tsx", ".tsx"), ("jsx", ".jsx")]

/-- Extension inference: the tag lookup when a language tag is present
(unknown tags fall back to `.txt`), otherwise content sniffing on the
lowercased first 200 characters (HTML marker, then leading brace/bracket for
JSON, then Python keywords on the original body, else `.txt`). -/
def detectExt (lang code : List Char) : String :=
  if lang.isEmpty then
    let code_lower := (code.take 200).map Char.toLower
    if containsSub "<!doctype".data code_lower || containsSub "<html".data code_lower then
      ".html"
    else if (pyStripL code_lower).head? = some (Char.ofNat 123)
        ∨ (pyStripL code_lower).head? = some (Char.ofNat 91) then
      ".json"
    else if containsSub "def ".data code || containsSub "import ".data code
        || containsSub "class ".data code then
      ".py"
    else ".txt"
  else (ext_map.lookup (String.mk (lang.map Char.toLower))).getD ".txt"

/-- Emitter for `re.sub(r'\n{3,}', '\n\n', ...)`: a pending run of `n`
newlines is collapsed to two when the run has length at least 3. -/
def newlinesOut (n : ℕ) : List Char :=
  if n ≥ 3 then ['\n', '\n'] else List.replicate n '\n'

/-- Scan for the blank-line collapse, carrying the pending newline-run
length. -/
def collapseAux : List Char → ℕ → List Char
  | [], n => newlinesOut n
  | c :: rest, n =>
    if c == '\n' then collapseAux rest (n + 1)
    else newlinesOut n ++ (c :: collapseAux rest 0)

/-- `re.sub(r'\n{3,}', '\n\n', s)`. -/
def collapseNewlines (cs : List Char) : List Char := collapseAux cs 0

/-- The files written by the extraction loop: name
`artifact_{timestamp}_{i+1}{ext}` and stripped body, for each match in
order. -/
def buildFiles : List (List Char × List Char) → String → ℕ → List (String × String)
  | [], _, _ => []
  | (lang, code) :: rest, ts, i =>
    ("artifact_" ++ ts ++ "_" ++ toString (i + 1) ++ detectExt lang code,
     String.mk (pyStripL code)) :: buildFiles rest ts (i + 1)

/-- `extract_and_save_artifacts` from `routes.py`, second half: either
return the text unchanged with count 0 when nothing was found, or remove
the matched blocks, collapse runs of three or more newlines, strip, and
append the artifact notice; the files written by the saving loop (an effect
in the source) are returned as the second component.  The `timestamp`
argument stands for `datetime.now().strftime("%Y%m%d_%H%M%S")`. -/
def extractFinish (response_text timestamp : String)
    (found : List (List Char × List Char)) (removed : List Char) :
    (String × ℕ) × List (String × String) :=
  if found.isEmpty then
    ((response_text, 0), [])
  else
    let count := found.length
    let modified := pyStripL (collapseNewlines removed)
    let artifact_msg := "\n\n✅ **" ++ toString count
      ++ " artefato(s) criado(s)!** [Clique aqui para visualizar](/artifacts)"
    ((String.mk modified ++ artifact_msg, count), buildFiles found timestamp 0)

/-- `extract_and_save_artifacts`, first half: find all fenced blocks
(falling back to a direct HTML document when there are none) and hand them,
with the text from which the fence matches were removed, to
`extractFinish`. -/
def extract_and_save_artifacts (response_text timestamp : String) :
    (String × ℕ) × List (String × String) :=
  let cs := response_text.data
  let scanned := scanAux cs.length cs
  let lower := cs.map Char.toLower
  let found :=
    if scanned.1.isEmpty
        && (containsSub "<!doctype".data lower || containsSub "<html".data lower) then
      match htmlSearch cs with
      | some m => [("html".data, m)]
      | none => scanned.1
    else scanned.1
  extractFinish response_text timestamp found scanned.2

/-- With count 0, `extractFinish` returned the unchanged input text. -/
theorem extractFinish_count_zero (text ts : String)
    (found : List (List Char × List Char)) (removed : List Char)
    (h : ((extractFinish text ts found removed).1).2 = 0) :
    ((extractFinish text ts found removed).1).1 = text := by
  cases found with
  | nil => rfl
  | cons a t => simp [extractFinish] at h

/-- With a positive count, `extractFinish` returned the fence-stripped,
blank-collapsed, stripped text followed by the artifact notice. -/
theorem extractFinish_count_pos (text ts : String)
    (found : List (List Char × List Char)) (removed : List Char)
    (h : 0 < ((extractFinish text ts found removed).1).2) :
    ((extractFinish text ts found removed).1).1
      = String.mk (pyStripL (collapseNewlines removed))
        ++ ("\n\n✅ **" ++ toString (((extractFinish text ts found removed).1).2)
            ++ " artefato(s) criado(s)!** [Clique aqui para visualizar](/artifacts)") := by
  cases found with
  | nil => simp [extractFinish] at h
  | cons a t => rfl

/-- The concrete reply of claim C6: one fenced block tagged `python` and one
untagged fenced block whose body starts with a brace. -/
def exText : String :=
  "Aqui esta o codigo:\n```python\nimport os\nprint(1)\n```\nE o json:\n```\n\x7b \"a\": 1 \x7d\n```\nFim."

/-- Claim C6: extraction returns the input unchanged when the count is 0;
with a positive count it returns the text with all fenced blocks removed,
3+ blank runs collapsed and stripped, plus a trailing notice stating the
count; and on the concrete reply with a `python` block and an untagged
brace block it yields count 2, a `.py` and a `.json` file, cleaned text
free of fence markers, and a notice containing the literal count 2. -/
theorem extract_and_save_artifacts_spec :
    (∀ text ts, ((extract_and_save_artifacts text ts).1).2 = 0 →
      ((extract_and_save_artifacts text ts).1).1 = text)
  ∧ (∀ text ts, 0 < ((extract_and_save_artifacts text ts).1).2 →
      ∃ body : String,
        ((extract_and_save_artifacts text ts).1).1
          = body ++ ("\n\n✅ **" ++ toString (((extract_and_save_artifacts text ts).1).2)
              ++ " artefato(s) criado(s)!** [Clique aqui para visualizar](/artifacts)")
        ∧ body.data = pyStripL (collapseNewlines ((scanAux text.data.length text.data).2)))
  ∧ extract_and_save_artifacts exText "20260101_120000"
      = (("Aqui esta o codigo:\n\nE o json:\n\nFim.\n\n✅ **2 artefato(s) criado(s)!** [Clique aqui para visualizar](/artifacts)",
          2),
         [("artifact_20260101_120000_1.py", "import os\nprint(1)"),
          ("artifact_20260101_120000_2.json", "\x7b \"a\": 1 \x7d")])
  ∧ containsSub [fenceChar, fenceChar, fenceChar]
      (((extract_and_save_artifacts exText "20260101_120000").1).1).data = false
  ∧ containsSub "2".data
      ("\n\n✅ **" ++ toString (((extract_and_save_artifacts exText "20260101_120000").1).2)
        ++ " artefato(s) criado(s)!** [Clique aqui para visualizar](/artifacts)").data = true := by
  refine ⟨?_, ?_, ?_, ?_, ?_⟩
  · intro text ts h
    simp only [extract_and_save_artifacts] at h ⊢
    exact extractFinish_count_zero text ts _ _ h
  · intro text ts h
    simp only [extract_and_save_artifacts] at h ⊢
    exact ⟨String.mk (pyStripL (collapseNewlines ((scanAux text.data.length text.data).2))),
      extractFinish_count_pos text ts _ _ h, rfl⟩
  · rfl
  · rfl
  · rfl

/-- Witness for C6's universally quantified parts at concrete inputs. -/
theorem extract_and_save_artifacts_spec_witness :
    ((extract_and_save_artifacts "ola mundo" "t").1).1 = "ola mundo"
  ∧ ∃ body : String,
      ((extract_and_save_artifacts exText "t").1).1
        = body ++ ("\n\n✅ **" ++ toString (((extract_and_save_artifacts exText "t").1).2)
            ++ " artefato(s) criado(s)!** [Clique aqui para visualizar](/artifacts)")
      ∧ body.data = pyStripL (collapseNewlines ((scanAux exText.data.length exText.data).2)) := by
  constructor
  · exact extract_and_save_artifacts_spec.1 "ola mundo" "t" rfl
  · exact extract_and_save_artifacts_spec.2.1 exText "t" (by decide)

/-! ### SSE stream generator (src/routes.py, generate_sse_response) -/

/-- A retrieved document from the knowledge-retrieval service. -/
structure RagDoc where
  source : String
  content : String
deriving DecidableEq

/-- Outcome of the RAG search block: either an exception escaping the
`try`, or an HTTP response with a status code and (for 200) parsed
results. -/
inductive RagOutcome where
  | exc (msg : String)
  | http (status : ℕ) (results : List RagDoc)

/-- The external environment of one streamed request: the sandbox-service
calls, the retrieval-service outcome, the model call (a function of the
query actually sent), and the timestamp string used for artifact files. -/
structure SseEnv where
  createSandbox : Except String Unit
  setupSandbox : Except String Bool
  rag : RagOutcome
  sendMessage : String → Except String String
  artifactTimestamp : String

/-- One server-sent event, as a structured payload. -/
inductive Event where
  | sessionInit (session_id : String)
  | chunk (text : String) (session_id : String) (refresh_sessions : Option Bool)
  | artifacts (count : ℕ)
  | done
  | err (msg : String)
deriving DecidableEq

/-- The process-wide mutable state touched by the generator: the audit
trails, the session store, and a logical clock standing in for
`datetime.now()` / `uuid4()` freshness. -/
structure GState where
  audit : AuditState
  sessions : SessionsState
  clock : ℕ

/-- One `datetime.now()` call: the current instant, advancing the clock. -/
def tick (st : GState) : ℚ × GState :=
  ((st.clock : ℚ), { st with clock := st.clock + 1 })

/-- One `uuid4()` call for a message id. -/
def freshId (st : GState) : String × GState :=
  ("uuid-" ++ toString st.clock, { st with clock := st.clock + 1 })

/-- The chunk loop `for i, word in enumerate(words)`: one chunk event per
word, text = word plus a trailing space, with the refresh flag only when
the running index is 0. -/
def chunkEventsAux : List String → String → ℕ → List Event
  | [], _, _ => []
  | w :: ws, session_id, i =>
    Event.chunk (w ++ " ") session_id (if i = 0 then some true else none)
      :: chunkEventsAux ws session_id (i + 1)

/-- Events of the streaming tail (lines 341-368 of routes.py): the word
chunks, the artifacts-count event when any artifact was created, and the
DONE sentinel. -/
def streamEvents (session_id modified_response : String) (artifacts_count : ℕ) : List Event :=
  chunkEventsAux (pySplit modified_response) session_id 0
    ++ (if artifacts_count > 0 then [Event.artifacts artifacts_count] else [])
    ++ [Event.done]

/-- The inline details-update loop of routes.py lines 330-334: walk the
trail backwards and set the details of the first running
`extract_artifacts` step. -/
def setDetailsRev (d : Details) : List AuditStep → List AuditStep
  | [] => []
  | s :: rest =>
    if s.step = "extract_artifacts" ∧ s.status = "running" then { s with details := some d } :: rest
    else s :: setDetailsRev d rest

/-- State update of the details-update loop (guarded by
`session_id in AuditTrail._trails`). -/
def updateExtractDetails (trails : AuditState) (session_id : String) (d : Details) : AuditState :=
  match trails session_id with
  | none => trails
  | some l =>
    fun s => if s = session_id then some ((setDetailsRev d l.reverse).reverse) else trails s

/-- The retrieved-documents context block of the augmented prompt. -/
def ragContext (results : List RagDoc) : String :=
  String.intercalate "\n\n"
    (results.map fun r => "[Fonte: " ++ r.source ++ "]\n" ++ r.content.take 1000)

/-- The augmented prompt sent to the model when retrieval produced
results. -/
def augmentedQuery (context message : String) : String :=
  "<base_conhecimento>\n" ++ context ++ "\n</base_conhecimento>\n\nIMPORTANTE: Responda APENAS com base nos documentos acima da <base_conhecimento>.\nSe a informação não estiver nos documentos, diga: \"Não encontrei essa informação na base de conhecimento.\"\nNÃO use conhecimento geral ou informações externas.\n\nPergunta: " ++ message

/-- `generate_sse_response` from the `minimax_api` step onward (routes.py
lines 319-368): call the model with the (possibly augmented) query, close
the step, extract artifacts from a nonempty reply (updating the step's
details with the artifact count), append the assistant message and emit the
chunk/artifacts/DONE events; a model-call exception is converted by the
outer handler into a single error event. -/
def sse_after_rag (session_id query_message : String) (use_rag : Bool) (rag_docs_count : ℕ)
    (env : SseEnv) (st : GState) : List Event × GState :=
  let (t1, st1) := tick st
  let st2 := { st1 with audit := (AuditTrail.start_step st1.audit session_id "minimax_api"
      (some [("rag_used", DVal.b use_rag), ("docs_found", DVal.n (rag_docs_count : ℤ))]) t1).2 }
  match env.sendMessage query_message with
  | Except.error e => ([Event.err e], st2)
  | Except.ok response_text =>
    let (t2, st3) := tick st2
    let st4 := { st3 with
      audit := AuditTrail.end_step st3.audit session_id "minimax_api" "success" none t2 }
    let r :=
      if response_text ≠ "" then
        let (t3, st5) := tick st4
        let st6 := { st5 with
          audit := (AuditTrail.start_step st5.audit session_id "extract_artifacts" none t3).2 }
        let ex := extract_and_save_artifacts response_text env.artifactTimestamp
        let st7 := { st6 with audit := (updateExtractDetails st6.audit session_id
          [("artifacts_created", DVal.n ((ex.1).2 : ℤ))]) }
        let (t4, st8) := tick st7
        let st9 := { st8 with
          audit := AuditTrail.end_step st8.audit session_id "extract_artifacts" "success" none t4 }
        (ex.1, st9)
      else (("", 0), st4)
    let (tm, st10) := tick r.2
    let (tu, st11) := tick st10
    let (mid, st12) := freshId st11
    let st13 := { st12 with sessions := ((SessionManager.add_message st12.sessions
      session_id "assistant" (r.1).1 mid tm tu).2) }
    (streamEvents session_id (r.1).1 (r.1).2, st13)

/-- The body of `generate_sse_response`'s `try` block (routes.py lines
257-368): sandbox creation and setup with their audit steps (failures give
a single error event, the setup-returning-false case its fixed message),
the user-message append, the optional RAG stage, then the tail
`sse_after_rag`.  Exceptions escaping any stage become the single error
event yielded by the `except` handler. -/
def sse_try_body (message session_id : String) (use_rag : Bool) (env : SseEnv) (st : GState) :
    List Event × GState :=
  let (t1, st1) := tick st
  let st2 := { st1 with
    audit := (AuditTrail.start_step st1.audit session_id "create_sandbox" none t1).2 }
  match env.createSandbox with
  | Except.error e => ([Event.err e], st2)
  | Except.ok _ =>
    let (t2, st3) := tick st2
    let st4 := { st3 with
      audit := AuditTrail.end_step st3.audit session_id "create_sandbox" "success" none t2 }
    let (t3, st5) := tick st4
    let st6 := { st5 with
      audit := (AuditTrail.start_step st5.audit session_id "setup_sandbox" none t3).2 }
    match env.setupSandbox with
    | Except.error e => ([Event.err e], st6)
    | Except.ok b =>
      if !b then
        let (t4, st7) := tick st6
        let st8 := { st7 with audit := (AuditTrail.end_step st7.audit session_id "setup_sandbox"
          "error" (some "Falha ao configurar") t4) }
        ([Event.err "Falha ao configurar sandbox"], st8)
      else
        let (t4, st7) := tick st6
        let st8 := { st7 with
          audit := AuditTrail.end_step st7.audit session_id "setup_sandbox" "success" none t4 }
        let (tm, st9) := tick st8
        let (tu, st10) := tick st9
        let (mid, st11) := freshId st10
        let st12 := { st11 with sessions := ((SessionManager.add_message st11.sessions
          session_id "user" message mid tm tu).2) }
        if use_rag then
          let (t5, st13) := tick st12
          let st14 := { st13 with audit := (AuditTrail.start_step st13.audit session_id
            "rag_search" (some [("query", DVal.s (message.take 50))]) t5).2 }
          match env.rag with
          | RagOutcome.exc e =>
            let (t6, st15) := tick st14
            let st16 := { st15 with audit := (AuditTrail.end_step st15.audit session_id
              "rag_search" "error" (some e) t6) }
            sse_after_rag session_id message use_rag 0 env st16
          | RagOutcome.http status results =>
            if status = 200 then
              if results ≠ [] then
                let (t6, st15) := tick st14
                let st16 := { st15 with audit := (AuditTrail.end_step st15.audit session_id
                  "rag_search" "success" none t6) }
                sse_after_rag session_id (augmentedQuery (ragContext results) message)
                  use_rag results.length env st16
              else
                let (t6, st15) := tick st14
                let st16 := { st15 with audit := (AuditTrail.end_step st15.audit session_id
                  "rag_search" "success" (some "Nenhum documento encontrado") t6) }
                sse_after_rag session_id message use_rag 0 env st16
            else
              sse_after_rag session_id message use_rag 0 env st14
        else
          sse_after_rag session_id message use_rag 0 env st12

/-- `generate_sse_response`: the session-init event is yielded first,
before any other work, then the `try` body runs. -/
def generate_sse_response (message session_id : String) (use_rag : Bool) (env : SseEnv)
    (st : GState) : List Event × GState :=
  let r := sse_try_body message session_id use_rag env st
  (Event.sessionInit session_id :: r.1, r.2)

/-! ### Stream event ordering (claims C1, C2, C5) -/

/-- Is this event an error event? -/
def isErr : Event → Bool
  | Event.err _ => true
  | _ => false

/-- Is this event a chunk event? -/
def isChunk : Event → Bool
  | Event.chunk _ _ _ => true
  | _ => false

/-- Every event of the chunk loop is a chunk event for the given session. -/
theorem chunkEventsAux_mem (ws : List String) (sid : String) (n : ℕ) :
    ∀ e ∈ chunkEventsAux ws sid n, ∃ t r, e = Event.chunk t sid r := by
  induction ws generalizing n with
  | nil => intro e he; simp [chunkEventsAux] at he
  | cons w ws ih =>
    intro e he
    rcases List.mem_cons.mp he with h | h
    · exact ⟨w ++ " ", (if n = 0 then some true else none), h⟩
    · exact ih (n + 1) e h

/-- The streaming tail is never empty. -/
theorem streamEvents_ne_nil (sid m : String) (c : ℕ) : streamEvents sid m c ≠ [] := by
  simp [streamEvents]

/-- The streaming tail always ends with the DONE sentinel. -/
theorem streamEvents_getLast (sid m : String) (c : ℕ) :
    (streamEvents sid m c).getLast? = some Event.done := by
  rw [streamEvents]
  exact List.getLast?_concat _

/-- The streaming tail contains no error event. -/
theorem streamEvents_no_err (sid m : String) (c : ℕ) (e : String) :
    Event.err e ∉ streamEvents sid m c := by
  intro hmem
  rw [streamEvents] at hmem
  rcases List.mem_append.mp hmem with h | h
  · rcases List.mem_append.mp h with h' | h'
    · obtain ⟨t, r, ht⟩ := chunkEventsAux_mem (pySplit m) sid 0 _ h'
      exact Event.noConfusion ht
    · by_cases hc : c > 0
      · rw [if_pos hc] at h'
        simp at h'
      · rw [if_neg hc] at h'
        simp at h'
  · simp at h

/-- Well-formedness of a stream body: nonempty, DONE or an error event
last, and any error event is the unique last event with no DONE at all. -/
def StreamBodyOk (evs : List Event) : Prop :=
  evs ≠ []
  ∧ (evs.getLast? = some Event.done ∨ ∃ m, evs.getLast? = some (Event.err m))
  ∧ (∀ m, Event.err m ∈ evs →
      evs.getLast? = some (Event.err m) ∧ evs.countP isErr = 1 ∧ Event.done ∉ evs)

/-- A single error event is a well-formed stream body. -/
theorem streamBodyOk_err (e : String) : StreamBodyOk [Event.err e] := by
  refine ⟨by simp, Or.inr ⟨e, rfl⟩, ?_⟩
  intro m hm
  simp only [List.mem_singleton] at hm
  cases hm
  exact ⟨rfl, by simp [List.countP_cons, isErr], by simp⟩

/-- The streaming tail is a well-formed stream body. -/
theorem streamBodyOk_stream (sid m : String) (c : ℕ) : StreamBodyOk (streamEvents sid m c) := by
  refine ⟨streamEvents_ne_nil sid m c, Or.inl (streamEvents_getLast sid m c), ?_⟩
  intro e he
  exact absurd he (streamEvents_no_err sid m c e)

/-- The post-RAG stage always produces a well-formed stream body. -/
theorem sse_after_rag_ok (session_id query_message : String) (use_rag : Bool)
    (rag_docs_count : ℕ) (env : SseEnv) (st : GState) :
    StreamBodyOk ((sse_after_rag session_id query_message use_rag rag_docs_count env st).1) := by
  unfold sse_after_rag
  cases h : env.sendMessage query_message with
  | error e =>
    simp only [tick]
    exact streamBodyOk_err e
  | ok response_text =>
    simp only [tick, freshId]
    exact streamBodyOk_stream _ _ _

/-- The whole `try` body always produces a well-formed stream body. -/
theorem sse_try_body_ok (message session_id : String) (use_rag : Bool) (env : SseEnv)
    (st : GState) :
    StreamBodyOk ((sse_try_body message session_id use_rag env st).1) := by
  unfold sse_try_body
  cases hc : env.createSandbox with
  | error e => exact streamBodyOk_err e
  | ok u =>
    cases hs : env.setupSandbox with
    | error e => exact streamBodyOk_err e
    | ok b =>
      cases b with
      | false => exact streamBodyOk_err _
      | true =>
        cases use_rag with
        | false => exact sse_after_rag_ok _ _ _ _ _ _
        | true =>
          cases hr : env.rag with
          | exc e => exact sse_after_rag_ok _ _ _ _ _ _
          | http status results =>
            dsimp only [tick, freshId]
            by_cases hst : status = 200
            · rw [if_pos hst]
              cases results with
              | nil => exact sse_after_rag_ok _ _ _ _ _ _
              | cons d ds => exact sse_after_rag_ok _ _ _ _ _ _
            · rw [if_neg hst]
              exact sse_after_rag_ok _ _ _ _ _ _

/-- Dropping a non-nil tail's head keeps the last element. -/
theorem getLast?_cons_of_ne_nil {α : Type} (a : α) (l : List α) (h : l ≠ []) :
    (a :: l).getLast? = l.getLast? := by
  cases l with
  | nil => exact absurd rfl h
  | cons b t => exact List.getLast?_cons_cons

/-- Claim C1: on every streamed request the event sequence starts with the
session-init event carrying the resolved session id, regardless of any
later failure; DONE or an error event is the last event; and every terminal
failure yields exactly one error event, which is the last event, with no
DONE sentinel anywhere after the failure. -/
theorem generate_sse_event_ordering (message session_id : String) (use_rag : Bool)
    (env : SseEnv) (st : GState) :
    ((generate_sse_response message session_id use_rag env st).1).head?
        = some (Event.sessionInit session_id)
  ∧ (((generate_sse_response message session_id use_rag env st).1).getLast? = some Event.done
      ∨ ∃ m, ((generate_sse_response message session_id use_rag env st).1).getLast?
          = some (Event.err m))
  ∧ (∀ m, Event.err m ∈ (generate_sse_response message session_id use_rag env st).1 →
      ((generate_sse_response message session_id use_rag env st).1).getLast?
          = some (Event.err m)
      ∧ ((generate_sse_response message session_id use_rag env st).1).countP isErr = 1
      ∧ Event.done ∉ (generate_sse_response message session_id use_rag env st).1) := by
  obtain ⟨hne, hlast, herr⟩ := sse_try_body_ok message session_id use_rag env st
  have hevs : (generate_sse_response message session_id use_rag env st).1
      = Event.sessionInit session_id :: (sse_try_body message session_id use_rag env st).1 := rfl
  refine ⟨by rw [hevs]; rfl, ?_, ?_⟩
  · rw [hevs, getLast?_cons_of_ne_nil _ _ hne]
    exact hlast
  · intro m hm
    rw [hevs] at hm
    rcases List.mem_cons.mp hm with h | h
    · exact absurd h.symm (by simp)
    · obtain ⟨h1, h2, h3⟩ := herr m h
      refine ⟨?_, ?_, ?_⟩
      · rw [hevs, getLast?_cons_of_ne_nil _ _ hne]
        exact h1
      · rw [hevs, List.countP_cons]
        simp [isErr, h2]
      · rw [hevs]
        intro hd
        rcases List.mem_cons.mp hd with h' | h'
        · exact absurd h'.symm (by simp)
        · exact h3 h'

/-- A concrete failing environment: sandbox creation raises. -/
def envFail : SseEnv :=
  { createSandbox := Except.error "boom", setupSandbox := Except.ok true,
    rag := RagOutcome.http 200 [], sendMessage := fun _ => Except.ok "",
    artifactTimestamp := "t" }

/-- A concrete fully-successful environment. -/
def envOk : SseEnv :=
  { createSandbox := Except.ok (), setupSandbox := Except.ok true,
    rag := RagOutcome.http 200 [], sendMessage := fun _ => Except.ok "ola mundo",
    artifactTimestamp := "t" }

/-- A concrete empty initial state. -/
def st0 : GState :=
  { audit := fun _ => none,
    sessions := { _sessions := fun _ => none, _current_session_id := none },
    clock := 0 }

/-- Witness for C1: the failure branch of the ordering theorem at a
concrete input where an error event occurs. -/
theorem generate_sse_event_ordering_witness :
    ((generate_sse_response "oi" "s" false envFail st0).1).getLast? = some (Event.err "boom")
  ∧ ((generate_sse_response "oi" "s" false envFail st0).1).countP isErr = 1
  ∧ Event.done ∉ (generate_sse_response "oi" "s" false envFail st0).1 :=
  (generate_sse_event_ordering "oi" "s" false envFail st0).2.2 "boom" (by decide)

/-- The `modified_response`/`artifacts_count` pair the generator streams
from: artifact extraction on a nonempty reply, else the empty reply with
count 0 (routes.py lines 324-339). -/
def modifiedOf (reply ts : String) : String × ℕ :=
  if reply ≠ "" then (extract_and_save_artifacts reply ts).1 else ("", 0)

/-- When the model call returns a reply, the post-RAG stage emits exactly
the streaming tail for the (possibly artifact-stripped) reply. -/
theorem sse_after_rag_events_of_ok (session_id q reply : String) (use_rag : Bool) (n : ℕ)
    (env : SseEnv) (st : GState) (hm : env.sendMessage q = Except.ok reply) :
    (sse_after_rag session_id q use_rag n env st).1
      = streamEvents session_id ((modifiedOf reply env.artifactTimestamp).1)
          ((modifiedOf reply env.artifactTimestamp).2) := by
  unfold sse_after_rag
  rw [hm]
  dsimp only [tick, freshId]
  unfold modifiedOf
  by_cases hr : reply ≠ ""
  · rw [if_pos hr, if_pos hr]
  · rw [if_neg hr, if_neg hr]

/-- When sandbox creation and setup succeed and the model call returns a
reply, the whole stream is the session-init event followed by the streaming
tail of the (possibly artifact-stripped) reply — in particular this holds
whatever the RAG outcome was. -/
theorem generate_events_of_ok (message session_id reply : String) (use_rag : Bool)
    (env : SseEnv) (st : GState)
    (hc : env.createSandbox = Except.ok ())
    (hs : env.setupSandbox = Except.ok true)
    (hm : ∀ q, env.sendMessage q = Except.ok reply) :
    (generate_sse_response message session_id use_rag env st).1
      = Event.sessionInit session_id
        :: streamEvents session_id ((modifiedOf reply env.artifactTimestamp).1)
            ((modifiedOf reply env.artifactTimestamp).2) := by
  have hevs : (generate_sse_response message session_id use_rag env st).1
      = Event.sessionInit session_id :: (sse_try_body message session_id use_rag env st).1 := rfl
  rw [hevs]
  congr 1
  unfold sse_try_body
  rw [hc]
  dsimp only [tick, freshId]
  rw [hs]
  dsimp only
  cases use_rag with
  | false => exact sse_after_rag_events_of_ok _ _ reply _ _ _ _ (hm _)
  | true =>
    cases hr : env.rag with
    | exc e => exact sse_after_rag_events_of_ok _ _ reply _ _ _ _ (hm _)
    | http status results =>
      dsimp only
      by_cases hst : status = 200
      · rw [if_pos hst]
        cases results with
        | nil => exact sse_after_rag_events_of_ok _ _ reply _ _ _ _ (hm _)
        | cons d ds => exact sse_after_rag_events_of_ok _ _ reply _ _ _ _ (hm _)
      · rw [if_neg hst]
        exact sse_after_rag_events_of_ok _ _ reply _ _ _ _ (hm _)

/-- Every chunk-loop event passes the chunk filter. -/
theorem chunkEventsAux_filter (ws : List String) (sid : String) (n : ℕ) :
    (chunkEventsAux ws sid n).filter isChunk = chunkEventsAux ws sid n := by
  induction ws generalizing n with
  | nil => rfl
  | cons w ws ih => simp [chunkEventsAux, List.filter_cons, isChunk, ih]

/-- Filtering the streaming tail to chunk events leaves exactly the chunk
loop's events. -/
theorem filter_streamEvents (sid m : String) (c : ℕ) :
    (streamEvents sid m c).filter isChunk = chunkEventsAux (pySplit m) sid 0 := by
  rw [streamEvents, List.filter_append, List.filter_append, chunkEventsAux_filter]
  have h1 : (if c > 0 then [Event.artifacts c] else []).filter isChunk = [] := by
    by_cases hc : c > 0
    · rw [if_pos hc]; rfl
    · rw [if_neg hc]; rfl
  rw [h1]
  simp [isChunk]

/-- The chunk loop emits one event per word. -/
theorem chunkEventsAux_length (ws : List String) (sid : String) (n : ℕ) :
    (chunkEventsAux ws sid n).length = ws.length := by
  induction ws generalizing n with
  | nil => rfl
  | cons w ws ih => simp [chunkEventsAux, ih]

/-- The i-th chunk-loop event is the i-th word plus a trailing space with
the session id, refreshing only at running index 0. -/
theorem chunkEventsAux_getElem? (ws : List String) (sid : String) (n i : ℕ)
    (h : i < ws.length) :
    (chunkEventsAux ws sid n)[i]?
      = some (Event.chunk (ws.get ⟨i, h⟩ ++ " ") sid (if n + i = 0 then some true else none)) := by
  induction ws generalizing n i with
  | nil => simp at h
  | cons w ws ih =>
    cases i with
    | zero => simp [chunkEventsAux]
    | succ j =>
      have hj : j < ws.length := Nat.lt_of_succ_lt_succ h
      rw [chunkEventsAux, List.getElem?_cons_succ, ih (n + 1) j hj]
      have harith : n + 1 + j = n + (j + 1) := by omega
      have hne1 : ¬(n + 1 + j = 0) := by omega
      have hne2 : ¬(n + (j + 1) = 0) := by omega
      rw [if_neg hne1, if_neg hne2]
      rfl

/-- Claim C2: whenever the stream reaches the chunking stage (sandbox
creation and setup succeed and the model call returns `reply`), the
generator emits exactly one chunk event per whitespace-delimited word of
the (possibly artifact-stripped) reply, in word order, each carrying the
word plus a trailing space and the session id; the first chunk (if any)
carries `refresh_sessions = true` and every later chunk omits the field. -/
theorem generate_sse_chunks_spec (message session_id reply : String) (use_rag : Bool)
    (env : SseEnv) (st : GState)
    (hc : env.createSandbox = Except.ok ())
    (hs : env.setupSandbox = Except.ok true)
    (hm : ∀ q, env.sendMessage q = Except.ok reply) :
    (((generate_sse_response message session_id use_rag env st).1).filter isChunk).length
        = (pySplit ((modifiedOf reply env.artifactTimestamp).1)).length
  ∧ ∀ (i : ℕ) (h2 : i < (pySplit ((modifiedOf reply env.artifactTimestamp).1)).length),
      (((generate_sse_response message session_id use_rag env st).1).filter isChunk)[i]?
        = some (Event.chunk
            ((pySplit ((modifiedOf reply env.artifactTimestamp).1)).get ⟨i, h2⟩ ++ " ")
            session_id (if i = 0 then some true else none)) := by
  have hfe : ((generate_sse_response message session_id use_rag env st).1).filter isChunk
      = chunkEventsAux (pySplit ((modifiedOf reply env.artifactTimestamp).1)) session_id 0 := by
    rw [generate_events_of_ok message session_id reply use_rag env st hc hs hm,
      List.filter_cons]
    have : isChunk (Event.sessionInit session_id) = false := rfl
    rw [this]
    simp only [Bool.false_eq_true, if_false]
    exact filter_streamEvents _ _ _
  constructor
  · rw [hfe, chunkEventsAux_length]
  · intro i h2
    rw [hfe, chunkEventsAux_getElem? _ _ 0 i h2, Nat.zero_add]

/-- Witness for C2 at a concrete successful environment. -/
theorem generate_sse_chunks_spec_witness :
    (((generate_sse_response "oi" "s" false envOk st0).1).filter isChunk).length
      = (pySplit ((modifiedOf "ola mundo" envOk.artifactTimestamp).1)).length :=
  (generate_sse_chunks_spec "oi" "s" "ola mundo" false envOk st0 rfl rfl (fun _ => rfl)).1

/-- Is this audit step the RAG search step? -/
def ragF (s : AuditStep) : Bool := s.step == "rag_search"

/-- The `rag_search` steps of a trace, in order. -/
def ragSteps (l : List AuditStep) : List AuditStep := l.filter ragF

/-- `endStepRev` for a step name other than `rag_search` leaves the
`rag_search` steps of a trace untouched. -/
theorem filter_ragF_endStepRev (name status : String) (err : Option String) (now : ℚ)
    (l : List AuditStep) (h : name ≠ "rag_search") :
    (AuditTrail.endStepRev name status err now l).filter ragF = l.filter ragF := by
  induction l with
  | nil => rfl
  | cons s rest ih =>
    by_cases hm : s.step = name ∧ s.status = "running"
    · have hragF : ragF s = false := by
        simp only [ragF, beq_eq_false_iff_ne]
        rw [hm.1]
        exact h
      have hragF' : ragF (AuditTrail.updStep now status err s) = false := hragF
      simp only [AuditTrail.endStepRev, if_pos hm, List.filter_cons, hragF, hragF',
        Bool.false_eq_true, if_false]
    · simp only [AuditTrail.endStepRev, if_neg hm, List.filter_cons, ih]

/-- `setDetailsRev` (which touches only `extract_artifacts` steps) leaves
the `rag_search` steps of a trace untouched. -/
theorem filter_ragF_setDetailsRev (d : Details) (l : List AuditStep) :
    (setDetailsRev d l).filter ragF = l.filter ragF := by
  induction l with
  | nil => rfl
  | cons s rest ih =>
    by_cases hm : s.step = "extract_artifacts" ∧ s.status = "running"
    · have hragF : ragF s = false := by
        simp only [ragF, beq_eq_false_iff_ne]
        rw [hm.1]
        simp
      have hragF' : ragF { s with details := some d } = false := hragF
      simp only [setDetailsRev, if_pos hm, List.filter_cons, hragF, hragF',
        Bool.false_eq_true, if_false]
    · simp only [setDetailsRev, if_neg hm, List.filter_cons, ih]

/-- Applying `start_step` and reading the same session's trace back. -/
theorem start_step_self (tr : AuditState) (sid name : String) (d : Option Details) (t : ℚ) :
    ((AuditTrail.start_step tr sid name d t).2) sid
      = some ((tr sid).getD []
          ++ [{ step := name, status := "running", started_at := t, details := d }]) := by
  simp [AuditTrail.start_step]

/-- `start_step` with a name other than `rag_search` preserves the
`rag_search` steps of the session's trace. -/
theorem ragSteps_start_step (tr : AuditState) (sid name : String) (d : Option Details)
    (t : ℚ) (h : name ≠ "rag_search") :
    ragSteps ((((AuditTrail.start_step tr sid name d t).2) sid).getD [])
      = ragSteps ((tr sid).getD []) := by
  rw [start_step_self]
  simp only [Option.getD_some, ragSteps, List.filter_append]
  have h1 : List.filter ragF
      ([{ step := name, status := "running", started_at := t, details := d }]
        : List AuditStep) = [] := by
    simp [List.filter_cons, ragF, h]
  rw [h1, List.append_nil]

/-- Reading `end_step`'s result back at the session, for a known trace. -/
theorem end_step_self_some (tr : AuditState) (sid name status : String)
    (err : Option String) (now : ℚ) (l : List AuditStep) (htr : tr sid = some l) :
    (AuditTrail.end_step tr sid name status err now) sid
      = some ((AuditTrail.endStepRev name status err now l.reverse).reverse) := by
  unfold AuditTrail.end_step
  rw [htr]
  simp

/-- `end_step` with a name other than `rag_search` preserves the
`rag_search` steps of the session's trace. -/
theorem ragSteps_end_step (tr : AuditState) (sid name status : String)
    (err : Option String) (now : ℚ) (h : name ≠ "rag_search") :
    ragSteps (((AuditTrail.end_step tr sid name status err now) sid).getD [])
      = ragSteps ((tr sid).getD []) := by
  cases htr : tr sid with
  | none =>
    have heq : AuditTrail.end_step tr sid name status err now = tr := by
      unfold AuditTrail.end_step
      rw [htr]
    rw [heq, htr]
  | some l =>
    rw [end_step_self_some tr sid name status err now l htr]
    simp only [Option.getD_some, ragSteps, List.filter_reverse,
      filter_ragF_endStepRev name status err now l.reverse h, List.filter_reverse,
      List.reverse_reverse]

/-- Reading the details-update loop's result back at the session, for a
known trace. -/
theorem updateExtractDetails_self_some (tr : AuditState) (sid : String) (d : Details)
    (l : List AuditStep) (htr : tr sid = some l) :
    (updateExtractDetails tr sid d) sid = some ((setDetailsRev d l.reverse).reverse) := by
  unfold updateExtractDetails
  rw [htr]
  simp

/-- The details-update loop preserves the `rag_search` steps of the
session's trace. -/
theorem ragSteps_updateExtractDetails (tr : AuditState) (sid : String) (d : Details) :
    ragSteps (((updateExtractDetails tr sid d) sid).getD [])
      = ragSteps ((tr sid).getD []) := by
  cases htr : tr sid with
  | none =>
    have heq : updateExtractDetails tr sid d = tr := by
      unfold updateExtractDetails
      rw [htr]
    rw [heq, htr]
  | some l =>
    rw [updateExtractDetails_self_some tr sid d l htr]
    simp only [Option.getD_some, ragSteps, List.filter_reverse,
      filter_ragF_setDetailsRev d l.reverse, List.filter_reverse, List.reverse_reverse]

/-- The whole post-RAG stage preserves the `rag_search` steps of the
session's trace. -/
theorem sse_after_rag_ragSteps (session_id q : String) (u : Bool) (n : ℕ)
    (env : SseEnv) (st : GState) :
    ragSteps ((((sse_after_rag session_id q u n env st).2).audit session_id).getD [])
      = ragSteps ((st.audit session_id).getD []) := by
  unfold sse_after_rag
  cases hm : env.sendMessage q with
  | error e =>
    dsimp only [tick, freshId]
    exact ragSteps_start_step _ _ _ _ _ (by simp)
  | ok reply =>
    dsimp only [tick, freshId]
    by_cases hr : reply ≠ ""
    · rw [if_pos hr]
      dsimp only
      rw [ragSteps_end_step _ _ _ _ _ _ (by simp),
        ragSteps_updateExtractDetails,
        ragSteps_start_step _ _ _ _ _ (by simp),
        ragSteps_end_step _ _ _ _ _ _ (by simp),
        ragSteps_start_step _ _ _ _ _ (by simp)]
    · rw [if_neg hr]
      dsimp only
      rw [ragSteps_end_step _ _ _ _ _ _ (by simp),
        ragSteps_start_step _ _ _ _ _ (by simp)]


/-- The reverse scan updates a matching running head step and stops. -/
theorem endStepRev_cons_match (name status : String) (err : Option String) (now : ℚ)
    (s : AuditStep) (rest : List AuditStep) (h1 : s.step = name) (h2 : s.status = "running") :
    AuditTrail.endStepRev name status err now (s :: rest)
      = AuditTrail.updStep now status err s :: rest := by
  unfold AuditTrail.endStepRev
  rw [if_pos ⟨h1, h2⟩]

/-- A step opened by `start_step` and closed by `end_step` with the same
name becomes the corresponding updated step at the end of the trace. -/
theorem end_of_start_self (tr : AuditState) (sid name status : String)
    (d : Option Details) (err : Option String) (t₁ t₂ : ℚ) :
    (AuditTrail.end_step ((AuditTrail.start_step tr sid name d t₁).2) sid name status err t₂) sid
      = some ((tr sid).getD []
          ++ [AuditTrail.updStep t₂ status err
              { step := name, status := "running", started_at := t₁, details := d }]) := by
  rw [end_step_self_some _ sid name status err t₂ _ (start_step_self tr sid name d t₁)]
  simp only [List.reverse_append, List.reverse_cons, List.reverse_nil, List.nil_append,
    List.singleton_append]
  rw [endStepRev_cons_match name status err t₂
    { step := name, status := "running", started_at := t₁, details := d }
    (((tr sid).getD []).reverse) rfl rfl]
  simp

/-- A concrete environment whose retrieval service answers with an HTTP 500
and everything else succeeds. -/
def envNon200 : SseEnv :=
  { createSandbox := Except.ok (), setupSandbox := Except.ok true,
    rag := RagOutcome.http 500 [], sendMessage := fun _ => Except.ok "ola mundo",
    artifactTimestamp := "t" }

/-- Claim C5 counterexample: on an augmented request whose retrieval
service fails with an HTTP 500 response, the `rag_search` audit step is
left with status `running` forever — the claim's "always closed, never left
running" is false — even though the request still streams a successful
reply. -/
theorem rag_non200_leaves_step_running :
    ((((generate_sse_response "oi" "s" true envNon200 st0).2).audit "s").getD []).filter
        (fun s => s.step == "rag_search" && s.status == "running") ≠ []
  ∧ ((generate_sse_response "oi" "s" true envNon200 st0).1).getLast? = some Event.done := by
  constructor
  · decide
  · decide

/-- The events of the post-RAG stage depend only on the query, the reply
and the artifact timestamp — not on the incoming state or the step
details. -/
theorem sse_after_rag_events_indep (session_id q : String) (u u' : Bool) (n n' : ℕ)
    (env : SseEnv) (st st' : GState) :
    (sse_after_rag session_id q u n env st).1
      = (sse_after_rag session_id q u' n' env st').1 := by
  cases hm : env.sendMessage q with
  | error e =>
    unfold sse_after_rag
    rw [hm]
  | ok reply =>
    rw [sse_after_rag_events_of_ok session_id q reply u n env st hm,
      sse_after_rag_events_of_ok session_id q reply u' n' env st' hm]

/-- Splitting off the last step of a trace in the RAG-step filter. -/
theorem ragSteps_append_single (T : List AuditStep) (x : AuditStep) :
    ragSteps (T ++ [x]) = ragSteps T ++ (if ragF x then [x] else []) := by
  simp only [ragSteps, List.filter_append, List.filter_cons, List.filter_nil]

/-- `updStep` never changes which step a trace entry belongs to. -/
theorem ragF_updStep (now : ℚ) (status : String) (err : Option String) (s : AuditStep) :
    ragF (AuditTrail.updStep now status err s) = ragF s := rfl

/-- The RAG filter on a freshly started step only looks at its name. -/
theorem ragF_runLit (name : String) (t : ℚ) (d : Option Details) :
    ragF { step := name, status := "running", started_at := t, details := d }
      = (name == "rag_search") := rfl

/-- Step-name comparisons used by the RAG filter. -/
theorem beq_create_rag : ("create_sandbox" == "rag_search") = false := rfl

/-- Step-name comparisons used by the RAG filter. -/
theorem beq_setup_rag : ("setup_sandbox" == "rag_search") = false := rfl

/-- Step-name comparisons used by the RAG filter. -/
theorem beq_rag_rag : ("rag_search" == "rag_search") = true := rfl

/-- A concrete environment whose retrieval service raises an exception. -/
def envExc : SseEnv :=
  { createSandbox := Except.ok (), setupSandbox := Except.ok true,
    rag := RagOutcome.exc "net down", sendMessage := fun _ => Except.ok "ola mundo",
    artifactTimestamp := "t" }

/-- Claim C5 (amended): a retrieval failure or empty result never aborts an
augmented request — the emitted events are exactly those of the same
request without augmentation, i.e. the model is called with the original
unaugmented query.  The `rag_search` audit step is closed with status
`error` carrying the failure text on an exception, and with status
`success` carrying the no-results note on an empty 200 result; but on a
non-200 response the code closes nothing and the step stays `running`. -/
theorem rag_failure_recovery_spec (message session_id : String) (env : SseEnv) (st : GState) :
    ((∃ e, env.rag = RagOutcome.exc e) ∨ env.rag = RagOutcome.http 200 []
        ∨ (∃ code results, env.rag = RagOutcome.http code results ∧ code ≠ 200) →
      (generate_sse_response message session_id true env st).1
        = (generate_sse_response message session_id false env st).1)
  ∧ (env.createSandbox = Except.ok () → env.setupSandbox = Except.ok true →
      ((∀ e, env.rag = RagOutcome.exc e →
        ∃ t₁ t₂ d dt,
          ragSteps ((((generate_sse_response message session_id true env st).2).audit
              session_id).getD [])
            = ragSteps ((st.audit session_id).getD [])
              ++ [{ step := "rag_search", status := "error", started_at := t₁,
                    ended_at := some t₂, duration_ms := some d, details := dt,
                    error := some e }])
      ∧ (env.rag = RagOutcome.http 200 [] →
        ∃ t₁ t₂ d dt,
          ragSteps ((((generate_sse_response message session_id true env st).2).audit
              session_id).getD [])
            = ragSteps ((st.audit session_id).getD [])
              ++ [{ step := "rag_search", status := "success", started_at := t₁,
                    ended_at := some t₂, duration_ms := some d, details := dt,
                    error := some "Nenhum documento encontrado" }])
      ∧ (∀ code results, env.rag = RagOutcome.http code results → code ≠ 200 →
        ∃ t₁ dt,
          ragSteps ((((generate_sse_response message session_id true env st).2).audit
              session_id).getD [])
            = ragSteps ((st.audit session_id).getD [])
              ++ [{ step := "rag_search", status := "running", started_at := t₁,
                    ended_at := none, duration_ms := none, details := dt,
                    error := none }]))) := by
  constructor
  · intro hrag
    have hgen : ∀ u : Bool, (generate_sse_response message session_id u env st).1
        = Event.sessionInit session_id :: (sse_try_body message session_id u env st).1 :=
      fun u => rfl
    rw [hgen true, hgen false]
    congr 1
    unfold sse_try_body
    cases hc : env.createSandbox with
    | error e => rfl
    | ok uu =>
      cases hs : env.setupSandbox with
      | error e => rfl
      | ok b =>
        cases b with
        | false => rfl
        | true =>
          rcases hrag with ⟨e, he⟩ | he | ⟨code, results, he, hcode⟩
          · rw [he]
            exact sse_after_rag_events_indep _ _ _ _ _ _ _ _ _
          · rw [he]
            exact sse_after_rag_events_indep _ _ _ _ _ _ _ _ _
          · rw [he]
            dsimp only [tick, freshId]
            rw [if_neg hcode]
            exact sse_after_rag_events_indep _ _ _ _ _ _ _ _ _
  · intro hc hs
    refine ⟨?_, ?_, ?_⟩
    · intro e he
      dsimp only [generate_sse_response]
      unfold sse_try_body
      rw [hc]
      dsimp only [tick, freshId]
      rw [hs]
      dsimp only
      rw [he]
      dsimp only
      rw [if_neg (show ¬((!true) = true) by simp), if_pos (show (true = true) from rfl)]
      rw [sse_after_rag_ragSteps]
      dsimp only
      simp only [end_of_start_self, Option.getD_some]
      simp only [ragSteps_append_single, ragF_updStep, ragF_runLit, beq_create_rag,
        beq_setup_rag, beq_rag_rag, Bool.false_eq_true, eq_self_iff_true, if_false, if_true,
        List.append_nil]
      exact ⟨_, _, _, _, rfl⟩
    · intro he
      dsimp only [generate_sse_response]
      unfold sse_try_body
      rw [hc]
      dsimp only [tick, freshId]
      rw [hs]
      dsimp only
      rw [he]
      dsimp only
      rw [if_neg (show ¬((!true) = true) by simp), if_pos (show (true = true) from rfl)]
      rw [if_pos (show (200 : ℕ) = 200 from rfl),
        if_neg (show ¬(([] : List RagDoc) ≠ []) by simp)]
      rw [sse_after_rag_ragSteps]
      dsimp only
      simp only [end_of_start_self, Option.getD_some]
      simp only [ragSteps_append_single, ragF_updStep, ragF_runLit, beq_create_rag,
        beq_setup_rag, beq_rag_rag, Bool.false_eq_true, eq_self_iff_true, if_false, if_true,
        List.append_nil]
      exact ⟨_, _, _, _, rfl⟩
    · intro code results he hcode
      dsimp only [generate_sse_response]
      unfold sse_try_body
      rw [hc]
      dsimp only [tick, freshId]
      rw [hs]
      dsimp only
      rw [he]
      dsimp only
      rw [if_neg (show ¬((!true) = true) by simp), if_pos (show (true = true) from rfl)]
      rw [if_neg hcode]
      rw [sse_after_rag_ragSteps]
      dsimp only
      rw [start_step_self]
      simp only [end_of_start_self, Option.getD_some]
      simp only [ragSteps_append_single, ragF_updStep, ragF_runLit, beq_create_rag,
        beq_setup_rag, beq_rag_rag, Bool.false_eq_true, eq_self_iff_true, if_false, if_true,
        List.append_nil]
      exact ⟨_, _, rfl⟩

/-- Witness for C5's amended theorem at a concrete failing environment. -/
theorem rag_failure_recovery_spec_witness :
    (generate_sse_response "oi" "s" true envExc st0).1
      = (generate_sse_response "oi" "s" false envExc st0).1
  ∧ ∃ t₁ t₂ d dt,
      ragSteps ((((generate_sse_response "oi" "s" true envExc st0).2).audit "s").getD [])
        = ragSteps ((st0.audit "s").getD [])
          ++ [{ step := "rag_search", status := "error", started_at := t₁,
                ended_at := some t₂, duration_ms := some d, details := dt,
                error := some "net down" }] := by
  constructor
  · exact (rag_failure_recovery_spec "oi" "s" envExc st0).1 (Or.inl ⟨"net down", rfl⟩)
  · exact ((rag_failure_recovery_spec "oi" "s" envExc st0).2 rfl rfl).1 "net down" rfl
